import Mathlib

/-!
# Flight-Schedule Parser and Query Tool: a shallow embedding

This file embeds the core of the flight-schedule tool (the validator in
`validator.py` and the query engine in `query_engine.py`) as executable Lean
definitions, and proves properties of the validation rules and the
query-matching semantics.

Modelling conventions:
* Python dictionaries become association lists (`List (String × α)`); lookup
  takes the first binding, mirroring the unique-key discipline of dicts.
* Python `float` values are modelled exactly, as rationals extended with the
  IEEE special values `+inf`, `-inf` and `nan` (`PyFloat`); rounding of
  decimal literals to binary doubles, overflow to infinity, and underflow to
  zero are not modelled, and digits are ASCII digits.
* `datetime.strptime` for the two fixed formats `%m/%d/%Y %H:%M` and
  `%Y-%m-%d %H:%M` is modelled after CPython's `_strptime` regexes
  (numeric fields are maximal ASCII digit runs of bounded length, with the
  day-of-month/leap-year validation done by the `datetime` constructor);
  a parsed instant is encoded as a single natural number whose order agrees
  with the lexicographic order on (year, month, day, hour, minute).
* Exceptions become an explicit `Except PyErr` result; the query engine's
  `except (ValueError, KeyError)` clauses catch exactly those two
  constructors, so an uncaught `TypeError` surfaces as `.error .typeError`.
-/

/-- Python exception classes relevant to the embedded code. -/
inductive PyErr where
  | valueError
  | keyError
  | typeError
deriving DecidableEq, Repr

/-- A Python `float`: an exact rational, or one of the IEEE special values. -/
inductive PyFloat where
  | fin (q : ℚ)
  | pinf
  | ninf
  | nan
deriving DecidableEq, Repr

/-- IEEE `<=` on Python floats: every comparison with `nan` is false. -/
def pfLe : PyFloat → PyFloat → Bool
  | .nan, _ => false
  | _, .nan => false
  | .ninf, _ => true
  | _, .ninf => false
  | _, .pinf => true
  | .pinf, _ => false
  | .fin a, .fin b => decide (a ≤ b)

/-- IEEE `<` on Python floats: every comparison with `nan` is false. -/
def pfLt : PyFloat → PyFloat → Bool
  | .nan, _ => false
  | _, .nan => false
  | .ninf, .ninf => false
  | .ninf, _ => true
  | _, .ninf => false
  | .pinf, _ => false
  | .fin _, .pinf => true
  | .fin a, .fin b => decide (a < b)

/-- IEEE `>` on Python floats. -/
def pfGt (a b : PyFloat) : Bool := pfLt b a

/-- IEEE `==` on Python floats: `nan` is not equal to anything, itself included. -/
def pfEqB : PyFloat → PyFloat → Bool
  | .fin a, .fin b => decide (a = b)
  | .pinf, .pinf => true
  | .ninf, .ninf => true
  | _, _ => false

/-- A JSON-scalar value as it appears in a flight record or a query object:
a string, a number (Python float), or `null` (Python `None`).  `vnull` also
stands for the `None` default of `dict.get` on a missing key. -/
inductive Value where
  | vstr (s : String)
  | vnum (f : PyFloat)
  | vnull
deriving DecidableEq, Repr

/-- Python `==` between two scalar values: strings compare to strings,
numbers to numbers with IEEE equality, `None` only to `None`; mixed
comparisons are unequal. -/
def pyEq : Value → Value → Bool
  | .vstr a, .vstr b => decide (a = b)
  | .vnum a, .vnum b => pfEqB a b
  | .vnull, .vnull => true
  | _, _ => false

/-- First-binding lookup in an association list, modelling `dict.__getitem__`
(`none` corresponds to a `KeyError` / failed `in` test). -/
def lookupV {α : Type} : List (String × α) → String → Option α
  | [], _ => none
  | (k2, v) :: rest, k => if k2 = k then some v else lookupV rest k

/-- A raw record as handed to the validator: field name to string. -/
abbrev Raw := List (String × String)

/-- A record or query object as handed to the query engine. -/
abbrev RecordV := List (String × Value)

/-! ## The model of `datetime.strptime` for the two fixed formats -/

/-- Split a character list into its maximal leading run of ASCII digits and
the remainder (the way a `\d{...}` regex group consumes input). -/
def splitRun : List Char → List Char × List Char
  | [] => ([], [])
  | c :: rest =>
    if c.isDigit then
      let p := splitRun rest
      (c :: p.1, p.2)
    else ([], c :: rest)

/-- Numeric value of a digit run. -/
def digitsVal (cs : List Char) : Nat :=
  cs.foldl (fun acc c => acc * 10 + (c.toNat - '0'.toNat)) 0

/-- Consume one numeric field: the maximal digit run must have a length in
`[minLen, maxLen]` and a value in `[lo, hi]` (this combines the CPython
`_strptime` field regex with the `datetime` constructor's range check). -/
def parseNumField (cs : List Char) (lo hi minLen maxLen : Nat) :
    Option (Nat × List Char) :=
  if minLen ≤ (splitRun cs).1.length ∧ (splitRun cs).1.length ≤ maxLen ∧
      lo ≤ digitsVal (splitRun cs).1 ∧ digitsVal (splitRun cs).1 ≤ hi
  then some (digitsVal (splitRun cs).1, (splitRun cs).2)
  else none

/-- Consume one literal separator character. -/
def expect (c : Char) : List Char → Option (List Char)
  | [] => none
  | x :: rest => if x = c then some rest else none

/-- Gregorian leap-year rule, as used by `datetime`. -/
def isLeap (y : Nat) : Bool := (y % 4 = 0 && y % 100 ≠ 0) || y % 400 = 0

/-- Number of days in a month, as validated by the `datetime` constructor. -/
def daysInMonth (m y : Nat) : Nat :=
  if m = 2 then (if isLeap y then 29 else 28)
  else if m = 4 ∨ m = 6 ∨ m = 9 ∨ m = 11 then 30
  else 31

/-- Encode (year, month, day, hour, minute) as one natural number whose
order is the lexicographic order on the components (month `< 13`,
day `< 32`, hour `< 24`, minute `< 60`). -/
def encodeDT (y m d h mi : Nat) : Nat :=
  (((y * 13 + m) * 32 + d) * 24 + h) * 60 + mi

/-- `datetime.strptime(s, '%m/%d/%Y %H:%M')` — the storage format used by
the validator (`FlightValidator.datetime_format`).  Returns the encoded
instant, or `none` for a `ValueError`. -/
def parseStorageDT (s : String) : Option Nat :=
  (parseNumField s.data 1 12 1 2).bind (fun pm =>
  (expect '/' pm.2).bind (fun r2 =>
  (parseNumField r2 1 31 1 2).bind (fun pd =>
  (expect '/' pd.2).bind (fun r4 =>
  (parseNumField r4 1 9999 4 4).bind (fun py =>
  (expect ' ' py.2).bind (fun r6 =>
  (parseNumField r6 0 23 1 2).bind (fun ph =>
  (expect ':' ph.2).bind (fun r8 =>
  (parseNumField r8 0 59 1 2).bind (fun pmin =>
  if pmin.2 = [] ∧ pd.1 ≤ daysInMonth pm.1 py.1
  then some (encodeDT py.1 pm.1 pd.1 ph.1 pmin.1)
  else none)))))))))

/-- `datetime.strptime(s, '%Y-%m-%d %H:%M')` — the query format used by
the query engine (`QueryEngine.datetime_format`). -/
def parseQueryDT (s : String) : Option Nat :=
  (parseNumField s.data 1 9999 4 4).bind (fun py =>
  (expect '-' py.2).bind (fun r2 =>
  (parseNumField r2 1 12 1 2).bind (fun pm =>
  (expect '-' pm.2).bind (fun r4 =>
  (parseNumField r4 1 31 1 2).bind (fun pd =>
  (expect ' ' pd.2).bind (fun r6 =>
  (parseNumField r6 0 23 1 2).bind (fun ph =>
  (expect ':' ph.2).bind (fun r8 =>
  (parseNumField r8 0 59 1 2).bind (fun pmin =>
  if pmin.2 = [] ∧ pd.1 ≤ daysInMonth pm.1 py.1
  then some (encodeDT py.1 pm.1 pd.1 ph.1 pmin.1)
  else none)))))))))

/-! ## The model of Python `float(string)` -/

/-- Strip leading and trailing whitespace, as `float()` does. -/
def trimWS (cs : List Char) : List Char :=
  (((cs.dropWhile Char.isWhitespace).reverse).dropWhile Char.isWhitespace).reverse

/-- Walk checking that every underscore is surrounded by digits (PEP 515);
`prev` is the character immediately before the current position. -/
def usOKGo : Char → List Char → Bool
  | _, [] => true
  | prev, c :: rest =>
    if c = '_' then
      (prev.isDigit && (match rest with
        | d :: _ => d.isDigit
        | [] => false)) && usOKGo c rest
    else usOKGo c rest

/-- Underscore placement check for a whole numeric literal. -/
def usOK : List Char → Bool
  | [] => true
  | c :: rest => if c = '_' then false else usOKGo c rest

/-- Exponent digits: the rest of the string must be a nonempty digit run. -/
def parseExpDigits (m : ℚ) (neg : Bool) (cs : List Char) : Option ℚ :=
  let d := (splitRun cs).1
  if d.length = 0 ∨ (splitRun cs).2 ≠ [] then none
  else some (if neg then m / (10 : ℚ) ^ digitsVal d else m * (10 : ℚ) ^ digitsVal d)

/-- Optional sign of the exponent. -/
def parseExpNum (m : ℚ) (cs : List Char) : Option ℚ :=
  match cs with
  | '+' :: rest => parseExpDigits m false rest
  | '-' :: rest => parseExpDigits m true rest
  | _ => parseExpDigits m false cs

/-- After the mantissa: end of string, or an `e`/`E` exponent part. -/
def parseExpTail (m : ℚ) (cs : List Char) : Option ℚ :=
  match cs with
  | [] => some m
  | c :: rest => if c = 'e' ∨ c = 'E' then parseExpNum m rest else none

/-- Unsigned decimal literal: `digits [. digits] [exp]` or `. digits [exp]`,
with at least one mantissa digit. -/
def parseDecimal (cs : List Char) : Option ℚ :=
  let d1 := (splitRun cs).1
  let r1 := (splitRun cs).2
  match r1 with
  | '.' :: r2 =>
    let d2 := (splitRun r2).1
    let r3 := (splitRun r2).2
    if d1.length = 0 ∧ d2.length = 0 then none
    else parseExpTail ((digitsVal d1 : ℚ) + (digitsVal d2 : ℚ) / (10 : ℚ) ^ d2.length) r3
  | _ =>
    if d1.length = 0 then none
    else parseExpTail (digitsVal d1 : ℚ) r1

/-- Body after the optional sign: the special spellings `inf`, `infinity`
and `nan` (case-insensitive), or a decimal literal. -/
def pyFloatBody (neg : Bool) (cs : List Char) : Option PyFloat :=
  let low := cs.map Char.toLower
  if low = "inf".data ∨ low = "infinity".data then
    some (if neg then .ninf else .pinf)
  else if low = "nan".data then some .nan
  else (parseDecimal cs).map (fun q => .fin (if neg then -q else q))

/-- Python `float(s)` on a string: `none` corresponds to a `ValueError`. -/
def pyFloatOfString (s : String) : Option PyFloat :=
  let cs := trimWS s.data
  if usOK cs = false then none
  else
    let cs2 := cs.filter (fun c => c ≠ '_')
    match cs2 with
    | '+' :: rest => pyFloatBody false rest
    | '-' :: rest => pyFloatBody true rest
    | _ => pyFloatBody false cs2

/-! ## The validator (`validator.py`, `FlightValidator`) -/

/-- The allow-list `FlightValidator.VALID_AIRPORTS`. -/
def VALID_AIRPORTS : List String :=
  ["LHR", "JFK", "FRA", "RIX", "OSL", "HEL", "ARN", "CDG", "DXB",
   "DOH", "SYD", "AMS", "LAX", "BRU", "ORD", "ATL", "DFW", "DEN",
   "SFO", "SEA", "MIA", "MCO", "LAS", "PHX", "IAH", "EWR", "IST",
   "CLT", "MSP", "DTW", "PHL", "LGA", "BOS", "SLC", "BWI", "TPA",
   "SAN", "PDX", "STL", "HNL", "SVO", "LON"]

/-- The six required field names, in the order the validator iterates them.
The query engine references the same six keys. -/
def required_fields : List String :=
  ["flight_id", "origin", "destination",
   "departure_datetime", "arrival_datetime", "price"]

/-- A required field is missing when the key is absent or its value is the
empty string (`field not in flight_data or flight_data[field] == ''`). -/
def isMissing (raw : Raw) (f : String) : Bool :=
  match lookupV raw f with
  | none => true
  | some v => v = ""

/-- The reason text for one missing field. -/
def missingMsg (f : String) : String := "missing " ++ f ++ " field"

/-- Step 1 of validation: one reason per missing required field, in the
fixed field order. -/
def missingErrs (raw : Raw) : List String :=
  (required_fields.filter (fun f => isMissing raw f)).map missingMsg

/-- Field access on a record known to contain the field (the validator only
reads fields after the required-field check has passed). -/
def getField (raw : Raw) (f : String) : String :=
  (lookupV raw f).getD ""

/-- `FlightValidator._validate_flight_id`: 2–8 alphanumeric characters
(Python `str.isalnum`, restricted here to ASCII). -/
def validate_flight_id (s : String) : Bool :=
  decide (2 ≤ s.length ∧ s.length ≤ 8) && s.data.all Char.isAlphanum

/-- `FlightValidator._validate_airport_code`: exactly three uppercase
letters and a member of the allow-list. -/
def validate_airport_code (s : String) : Bool :=
  decide (s.length = 3) && s.data.all Char.isUpper && VALID_AIRPORTS.contains s

/-- The reasons produced by the datetime checks (step 4): a format reason
per unparseable side, then the ordering reason when both sides parsed and
arrival is not strictly later than departure. -/
def dtErrsOf (dep arr : String) : List String :=
  (if parseStorageDT dep = none then ["invalid departure datetime"] else []) ++
  (if parseStorageDT arr = none then ["invalid arrival datetime"] else []) ++
  (match parseStorageDT dep, parseStorageDT arr with
   | some d, some a => if a ≤ d then ["arrival before departure"] else []
   | _, _ => [])

/-- The reasons produced by the price check (step 5). -/
def priceErrsOf (p : String) : List String :=
  match pyFloatOfString p with
  | none => ["invalid price format"]
  | some v => if pfLe v (.fin 0) then ["negative price value"] else []

/-- The full accumulated reason list of steps 2–5, in source order. -/
def accumulatedErrs (raw : Raw) : List String :=
  (if validate_flight_id (getField raw "flight_id") then []
   else ["invalid flight_id (must be 2-8 alphanumeric characters)"]) ++
  (if validate_airport_code (getField raw "origin") then []
   else ["invalid origin code"]) ++
  (if validate_airport_code (getField raw "destination") then []
   else ["invalid destination code"]) ++
  dtErrsOf (getField raw "departure_datetime") (getField raw "arrival_datetime") ++
  priceErrsOf (getField raw "price")

/-- `FlightValidator.validate_flight`: returns `(is_valid, error_messages)`.
If any required field is missing the missing-field reasons are returned
alone; otherwise all remaining checks run and accumulate. -/
def validate_flight (raw : Raw) : Bool × List String :=
  let missing := missingErrs raw
  if missing = [] then
    let errors := accumulatedErrs raw
    (errors.isEmpty, errors)
  else (false, missing)

/-- `FlightValidator.convert_to_typed_flight`: keep the five string fields,
coerce the price with `float()`.  The source would raise on an unparseable
price; that case is `none` here (it is unreachable after validation). -/
def convert_to_typed_flight (raw : Raw) : Option RecordV :=
  (pyFloatOfString (getField raw "price")).map (fun p =>
    [("flight_id", Value.vstr (getField raw "flight_id")),
     ("origin", Value.vstr (getField raw "origin")),
     ("destination", Value.vstr (getField raw "destination")),
     ("departure_datetime", Value.vstr (getField raw "departure_datetime")),
     ("arrival_datetime", Value.vstr (getField raw "arrival_datetime")),
     ("price", Value.vnum p)])

/-! ## The query engine (`query_engine.py`, `QueryEngine`) -/

/-- `datetime.strptime(value, '%Y-%m-%d %H:%M')` applied to a scalar value:
a string either parses or raises `ValueError`; any non-string argument
raises `TypeError`. -/
def strptimeQV : Value → Except PyErr Nat
  | .vstr s =>
    match parseQueryDT s with
    | some n => .ok n
    | none => .error .valueError
  | _ => .error .typeError

/-- `float(value)` applied to a scalar value: strings parse or raise
`ValueError`, numbers pass through, anything else raises `TypeError`. -/
def floatV : Value → Except PyErr PyFloat
  | .vstr s =>
    match pyFloatOfString s with
    | some f => .ok f
    | none => .error .valueError
  | .vnum f => .ok f
  | .vnull => .error .typeError

/-- One exact-match criterion (`flight.get(field) != query[field]`): absent
query key imposes no constraint; a missing flight field reads as `None`. -/
def exactCheck (flight query : RecordV) (field : String) : Bool :=
  match lookupV query field with
  | none => true
  | some qv => pyEq ((lookupV flight field).getD .vnull) qv

/-- The three exact-match criteria, in source order. -/
def exactPass (flight query : RecordV) : Bool :=
  exactCheck flight query "flight_id" &&
  exactCheck flight query "origin" &&
  exactCheck flight query "destination"

/-- One datetime criterion.  The query side is parsed first, then the
flight side; `ValueError` and `KeyError` are caught and make the criterion
fail closed, while a `TypeError` (non-string value) propagates.  For the
departure key (`isDep = true`) the flight must not be earlier than the
query value; for the arrival key it must not be later. -/
def dtCriterion (flight query : RecordV) (key : String) (isDep : Bool) :
    Except PyErr Bool :=
  match lookupV query key with
  | none => .ok true
  | some qv =>
    match strptimeQV qv with
    | .error .typeError => .error .typeError
    | .error _ => .ok false
    | .ok qn =>
      match lookupV flight key with
      | none => .ok false
      | some fv =>
        match strptimeQV fv with
        | .error .typeError => .error .typeError
        | .error _ => .ok false
        | .ok fn => .ok (if isDep then !decide (fn < qn) else !decide (qn < fn))

/-- The price criterion (`float(flight['price']) > float(query['price'])`
excludes the flight); same exception discipline as the datetime criteria. -/
def priceCriterion (flight query : RecordV) : Except PyErr Bool :=
  match lookupV query "price" with
  | none => .ok true
  | some qv =>
    match floatV qv with
    | .error .typeError => .error .typeError
    | .error _ => .ok false
    | .ok qf =>
      match lookupV flight "price" with
      | none => .ok false
      | some fv =>
        match floatV fv with
        | .error .typeError => .error .typeError
        | .error _ => .ok false
        | .ok ff => .ok (!pfGt ff qf)

/-- `QueryEngine._flight_matches_query`: the exact-match criteria run
first, then departure, arrival and price, each returning `False` for the
whole call as soon as it fails. -/
def flight_matches_query (flight query : RecordV) : Except PyErr Bool :=
  if exactPass flight query then
    match dtCriterion flight query "departure_datetime" true with
    | .error e => .error e
    | .ok false => .ok false
    | .ok true =>
      match dtCriterion flight query "arrival_datetime" false with
      | .error e => .error e
      | .ok false => .ok false
      | .ok true =>
        match priceCriterion flight query with
        | .error e => .error e
        | .ok false => .ok false
        | .ok true => .ok true
  else .ok false

/-- The result of `flight_matches_query` read as a plain boolean, with an
exception counted as a non-match (used to state filter characterisations). -/
def matchB (flight query : RecordV) : Bool :=
  match flight_matches_query flight query with
  | .ok b => b
  | .error _ => false

/-- An element of a decoded query file: a query object, or one of the
non-object JSON scalars that the source passes to `execute_query`
unchecked. -/
inductive QElem where
  | qobj (q : RecordV)
  | qstr (s : String)
  | qnum (f : PyFloat)
  | qnull
deriving DecidableEq, Repr

/-- Whether `needle` is a prefix of `hay`. -/
def leadsWith : List Char → List Char → Bool
  | [], _ => true
  | _ :: _, [] => false
  | a :: as, b :: bs => a = b && leadsWith as bs

/-- Whether `needle` occurs as a contiguous substring of `hay`
(Python `needle in hay` on strings). -/
def occursIn (needle : List Char) : List Char → Bool
  | [] => needle.isEmpty
  | c :: rest => leadsWith needle (c :: rest) || occursIn needle rest

/-- `_flight_matches_query` when the "query" is an arbitrary decoded JSON
element.  For a string query each `key in query` test is a substring test;
the first key that occurs as a substring leads to `query[key]`, which
raises `TypeError` on a string.  For a number or `null`, the very first
`in` test raises `TypeError`. -/
def matchesElem (flight : RecordV) : QElem → Except PyErr Bool
  | .qobj q => flight_matches_query flight q
  | .qstr s =>
    if required_fields.any (fun k => occursIn k.data s.data)
    then .error .typeError
    else .ok true
  | .qnum _ => .error .typeError
  | .qnull => .error .typeError

/-- `matchesElem` read as a boolean, exceptions counted as non-match. -/
def matchBE (flight : RecordV) (e : QElem) : Bool :=
  match matchesElem flight e with
  | .ok b => b
  | .error _ => false

/-- `QueryEngine.execute_query`'s loop over the flight list, generalised to
a decoded query element: collect the matching flights in order, stopping
at the first uncaught exception. -/
def execute_queryE (flights : List RecordV) (e : QElem) :
    Except PyErr (List RecordV) :=
  match flights with
  | [] => .ok []
  | fl :: rest =>
    match matchesElem fl e with
    | .error er => .error er
    | .ok b =>
      match execute_queryE rest e with
      | .error er => .error er
      | .ok tail => .ok (if b then fl :: tail else tail)

/-- `QueryEngine.execute_query` on a proper query object. -/
def execute_query (flights : List RecordV) (q : RecordV) :
    Except PyErr (List RecordV) :=
  execute_queryE flights (.qobj q)

/-- The decoded content of a query file: a single object, an array of
elements, or anything else (which the source rejects with `ValueError`). -/
inductive QueryFileContent where
  | cobj (q : RecordV)
  | carr (es : List QElem)
  | cother
deriving DecidableEq, Repr

/-- The query loop of `execute_queries_from_file`: one `(query, matches)`
result per element, in order, stopping at the first uncaught exception. -/
def runQueries (flights : List RecordV) : List QElem →
    Except PyErr (List (QElem × List RecordV))
  | [] => .ok []
  | e :: rest =>
    match execute_queryE flights e with
    | .error er => .error er
    | .ok ms =>
      match runQueries flights rest with
      | .error er => .error er
      | .ok tail => .ok ((e, ms) :: tail)

/-- `QueryEngine.execute_queries_from_file` after JSON decoding: a dict is
wrapped into a one-element list, a list is executed element by element, and
any other top-level value raises `ValueError`. -/
def execute_queries_content (flights : List RecordV) :
    QueryFileContent → Except PyErr (List (QElem × List RecordV))
  | .cobj q => runQueries flights [.qobj q]
  | .carr es => runQueries flights es
  | .cother => .error .valueError

/-! ## Helper lemmas -/

theorem parseNumField_some_len {cs : List Char} {lo hi a b : Nat}
    {pr : Nat × List Char} (h : parseNumField cs lo hi a b = some pr) :
    a ≤ (splitRun cs).1.length ∧ (splitRun cs).1.length ≤ b := by
  unfold parseNumField at h
  split at h
  · next hc => exact ⟨hc.1, hc.2.1⟩
  · cases h

theorem parseNumField_none_short {cs : List Char} {lo hi a b : Nat}
    (h : (splitRun cs).1.length < a) : parseNumField cs lo hi a b = none := by
  unfold parseNumField
  split
  · next hc => exact absurd hc.1 (by omega)
  · rfl

/-- The two datetime formats are disjoint: a string accepted by the storage
format `%m/%d/%Y %H:%M` is rejected by the query format `%Y-%m-%d %H:%M`
(the storage format starts with a run of at most two digits, the query
format demands exactly four). -/
theorem storageDT_queryDT_disjoint {s : String} {v : Nat}
    (h : parseStorageDT s = some v) : parseQueryDT s = none := by
  have hm : ∃ pr, parseNumField s.data 1 12 1 2 = some pr := by
    cases hp : parseNumField s.data 1 12 1 2 with
    | none => rw [parseStorageDT, hp] at h; simp at h
    | some pr => exact ⟨pr, rfl⟩
  obtain ⟨pr, hp⟩ := hm
  have hlen := (parseNumField_some_len hp).2
  rw [parseQueryDT, parseNumField_none_short (by omega)]
  rfl

theorem lookupV_nil {α : Type} (k : String) :
    lookupV ([] : List (String × α)) k = none := rfl

/-- An empty query imposes no constraint: every flight matches. -/
theorem matches_nil (fl : RecordV) : flight_matches_query fl [] = .ok true := rfl

theorem mem_ite_nil_else {c : Prop} [Decidable c] {a s : String} :
    (s ∈ (if c then ([] : List String) else [a])) ↔ (¬ c ∧ s = a) := by
  split <;> simp_all

theorem mem_ite_nil_then {c : Prop} [Decidable c] {a s : String} :
    (s ∈ (if c then [a] else ([] : List String))) ↔ (c ∧ s = a) := by
  split <;> simp_all

/-- All six required fields present and non-empty. -/
def allPresent (raw : Raw) : Bool :=
  required_fields.all (fun f => !(isMissing raw f))

theorem missingErrs_eq_nil {raw : Raw} (h : allPresent raw = true) :
    missingErrs raw = [] := by
  unfold allPresent at h
  unfold missingErrs
  have : required_fields.filter (fun f => isMissing raw f) = [] := by
    rw [List.filter_eq_nil_iff]
    intro a ha
    have := List.all_eq_true.mp h a ha
    simpa using this
  rw [this, List.map_nil]

theorem validate_flight_of_allPresent {raw : Raw} (h : allPresent raw = true) :
    validate_flight raw = ((accumulatedErrs raw).isEmpty, accumulatedErrs raw) := by
  unfold validate_flight
  rw [missingErrs_eq_nil h]
  simp

theorem missingErrs_ne_nil {raw : Raw}
    (h : required_fields.any (fun f => isMissing raw f) = true) :
    missingErrs raw ≠ [] := by
  obtain ⟨f, hf, hm⟩ := List.any_eq_true.mp h
  unfold missingErrs
  intro hnil
  rw [List.map_eq_nil_iff, List.filter_eq_nil_iff] at hnil
  exact hnil f hf hm

theorem validate_flight_of_missing {raw : Raw}
    (h : required_fields.any (fun f => isMissing raw f) = true) :
    validate_flight raw = (false, missingErrs raw) := by
  unfold validate_flight
  simp [missingErrs_ne_nil h]

/-- `execute_queryE` as an order-preserving filter, whenever no element of
the flight list raises. -/
theorem execute_queryE_filter {flights : List RecordV} {e : QElem}
    (h : ∀ fl ∈ flights, ∃ b, matchesElem fl e = .ok b) :
    execute_queryE flights e = .ok (flights.filter (fun fl => matchBE fl e)) := by
  induction flights with
  | nil => rfl
  | cons fl rest ih =>
    obtain ⟨b, hb⟩ := h fl (List.mem_cons_self _ _)
    have hrest := ih (fun x hx => h x (List.mem_cons_of_mem _ hx))
    unfold execute_queryE
    rw [hb, hrest]
    simp [List.filter_cons, matchBE, hb]

instance exceptDecEq {ε α : Type} [DecidableEq ε] [DecidableEq α] :
    DecidableEq (Except ε α)
  | .ok a, .ok b =>
    if h : a = b then .isTrue (by rw [h]) else .isFalse (by simp [h])
  | .error a, .error b =>
    if h : a = b then .isTrue (by rw [h]) else .isFalse (by simp [h])
  | .ok _, .error _ => .isFalse (fun h => Except.noConfusion h)
  | .error _, .ok _ => .isFalse (fun h => Except.noConfusion h)

/-- The value (if any) under a key is a string: the shape under which
`strptime` cannot raise `TypeError`. -/
def strOpt : Option Value → Bool
  | none => true
  | some (.vstr _) => true
  | some _ => false

/-- The value (if any) under a key is a string or a number: the shape under
which `float()` cannot raise `TypeError`. -/
def numStrOpt : Option Value → Bool
  | none => true
  | some (.vstr _) => true
  | some (.vnum _) => true
  | some _ => false

theorem strOpt_some {v : Value} (h : strOpt (some v) = true) :
    ∃ s, v = .vstr s := by
  cases v with
  | vstr s => exact ⟨s, rfl⟩
  | vnum f => cases h
  | vnull => cases h

theorem pyEq_vnull_left {v : Value} (h : v ≠ .vnull) : pyEq .vnull v = false := by
  cases v with
  | vstr s => rfl
  | vnum f => rfl
  | vnull => exact absurd rfl h

/-! ### Criterion-level lemmas -/

theorem dtCriterion_query_absent {f q : RecordV} {key : String} {isDep : Bool}
    (h : lookupV q key = none) : dtCriterion f q key isDep = .ok true := by
  unfold dtCriterion
  rw [h]

theorem dtCriterion_query_noparse {f q : RecordV} {key qs : String} {isDep : Bool}
    (hq : lookupV q key = some (.vstr qs)) (hn : parseQueryDT qs = none) :
    dtCriterion f q key isDep = .ok false := by
  unfold dtCriterion
  rw [hq]
  simp [strptimeQV, hn]

theorem dtCriterion_flight_missing {f q : RecordV} {key qs : String} {isDep : Bool}
    (hq : lookupV q key = some (.vstr qs)) (hm : lookupV f key = none) :
    dtCriterion f q key isDep = .ok false := by
  unfold dtCriterion
  rw [hq]
  cases hp : parseQueryDT qs with
  | none => simp [strptimeQV, hp]
  | some qn => simp [strptimeQV, hp, hm]

theorem dtCriterion_flight_noparse {f q : RecordV} {key qs fs : String}
    {isDep : Bool} (hq : lookupV q key = some (.vstr qs))
    (hf : lookupV f key = some (.vstr fs)) (hn : parseQueryDT fs = none) :
    dtCriterion f q key isDep = .ok false := by
  unfold dtCriterion
  rw [hq]
  cases hp : parseQueryDT qs with
  | none => simp [strptimeQV, hp]
  | some qn => simp [strptimeQV, hp, hf, hn]

theorem not_decide_lt (a b : Nat) : (!decide (a < b)) = decide (b ≤ a) := by
  by_cases h : a < b
  · have hb : ¬ b ≤ a := by omega
    simp [h, hb]
  · have hb : b ≤ a := by omega
    simp [h, hb]

theorem dtCriterion_both_parse (isDep : Bool) {f q : RecordV}
    {key qs fs : String} {qn fn : Nat} (hq : lookupV q key = some (.vstr qs))
    (hqp : parseQueryDT qs = some qn) (hf : lookupV f key = some (.vstr fs))
    (hfp : parseQueryDT fs = some fn) :
    dtCriterion f q key isDep =
      .ok (if isDep then decide (qn ≤ fn) else decide (fn ≤ qn)) := by
  unfold dtCriterion
  rw [hq]
  simp only [strptimeQV, hqp, hf, hfp]
  cases isDep <;> simp [not_decide_lt]

/-- A datetime criterion never raises when both sides hold strings (or are
absent). -/
theorem dtCriterion_safe (key : String) (isDep : Bool) {f q : RecordV}
    (hq : strOpt (lookupV q key) = true) (hf : strOpt (lookupV f key) = true) :
    ∃ b, dtCriterion f q key isDep = .ok b := by
  cases hql : lookupV q key with
  | none => exact ⟨true, dtCriterion_query_absent hql⟩
  | some qv =>
    rw [hql] at hq
    obtain ⟨qs, rfl⟩ := strOpt_some hq
    cases hqp : parseQueryDT qs with
    | none => exact ⟨false, dtCriterion_query_noparse hql hqp⟩
    | some qn =>
      cases hfl : lookupV f key with
      | none => exact ⟨false, dtCriterion_flight_missing hql hfl⟩
      | some fv =>
        rw [hfl] at hf
        obtain ⟨fs, rfl⟩ := strOpt_some hf
        cases hfp : parseQueryDT fs with
        | none => exact ⟨false, dtCriterion_flight_noparse hql hfl hfp⟩
        | some fn =>
          exact ⟨_, dtCriterion_both_parse isDep hql hqp hfl hfp⟩

theorem priceCriterion_flight_missing {f q : RecordV} {v : Value}
    (hq : lookupV q "price" = some v) (hwt : numStrOpt (some v) = true)
    (hm : lookupV f "price" = none) : priceCriterion f q = .ok false := by
  unfold priceCriterion
  rw [hq]
  cases v with
  | vstr s =>
    cases hp : pyFloatOfString s with
    | none => simp [floatV, hp]
    | some qf => simp [floatV, hp, hm]
  | vnum qf => simp [floatV, hm]
  | vnull => cases hwt

/-- A well-shaped value is converted by `float()` without a `TypeError`. -/
theorem floatV_no_typeError {v : Value} (hv : numStrOpt (some v) = true) :
    (∃ x, floatV v = .ok x) ∨ floatV v = .error .valueError := by
  cases v with
  | vstr s =>
    cases hp : pyFloatOfString s with
    | none => right; simp [floatV, hp]
    | some x => left; exact ⟨x, by simp [floatV, hp]⟩
  | vnum x => left; exact ⟨x, rfl⟩
  | vnull => cases hv

/-- The price criterion never raises when both sides hold strings or
numbers (or are absent). -/
theorem priceCriterion_safe {f q : RecordV}
    (hq : numStrOpt (lookupV q "price") = true)
    (hf : numStrOpt (lookupV f "price") = true) :
    ∃ b, priceCriterion f q = .ok b := by
  unfold priceCriterion
  cases hql : lookupV q "price" with
  | none => exact ⟨true, rfl⟩
  | some qv =>
    rw [hql] at hq
    rcases floatV_no_typeError hq with ⟨qf, hqf⟩ | hqf
    · cases hfl : lookupV f "price" with
      | none => exact ⟨false, by simp [hqf]⟩
      | some fv =>
        rw [hfl] at hf
        rcases floatV_no_typeError hf with ⟨ff, hff⟩ | hff
        · exact ⟨!pfGt ff qf, by simp [hqf, hff]⟩
        · exact ⟨false, by simp [hqf, hff]⟩
    · exact ⟨false, by simp [hqf]⟩

/-! ### Matcher composition lemmas -/

theorem matches_of_exact_false {f q : RecordV} (h : exactPass f q = false) :
    flight_matches_query f q = .ok false := by
  unfold flight_matches_query
  simp [h]

theorem matches_of_dep_false {f q : RecordV} (he : exactPass f q = true)
    (hd : dtCriterion f q "departure_datetime" true = .ok false) :
    flight_matches_query f q = .ok false := by
  unfold flight_matches_query
  simp [he, hd]

theorem matches_of_arr_false {f q : RecordV} (he : exactPass f q = true)
    (hd : dtCriterion f q "departure_datetime" true = .ok true)
    (ha : dtCriterion f q "arrival_datetime" false = .ok false) :
    flight_matches_query f q = .ok false := by
  unfold flight_matches_query
  simp [he, hd, ha]

theorem matches_of_price {f q : RecordV} (he : exactPass f q = true)
    (hd : dtCriterion f q "departure_datetime" true = .ok true)
    (ha : dtCriterion f q "arrival_datetime" false = .ok true)
    {r : Except PyErr Bool} (hp : priceCriterion f q = r) :
    flight_matches_query f q = r := by
  unfold flight_matches_query
  rw [he, if_pos rfl, hd, ha, hp]
  cases r with
  | error e => rfl
  | ok b => cases b <;> rfl

/-! ## Claim C1 -/

/-- C1 counterexample: for a record whose datetime fields are valid
storage-format strings and a query whose `departure_datetime` value is a
number, `matches` does not return false — the uncaught `TypeError` from
`strptime` on a non-string propagates instead. -/
theorem c1_counterexample :
    (parseStorageDT "01/15/2025 10:00").isSome = true ∧
    (parseStorageDT "01/15/2025 18:00").isSome = true ∧
    flight_matches_query
      [("departure_datetime", Value.vstr "01/15/2025 10:00"),
       ("arrival_datetime", Value.vstr "01/15/2025 18:00")]
      [("departure_datetime", Value.vnum (.fin 3))] = .error .typeError ∧
    flight_matches_query
      [("departure_datetime", Value.vstr "01/15/2025 10:00"),
       ("arrival_datetime", Value.vstr "01/15/2025 18:00")]
      [("departure_datetime", Value.vnum (.fin 3))] ≠ .ok false := by
  refine ⟨by decide, by decide, by decide, by decide⟩

/-- C1 (amended): for every record whose `departure_datetime` and
`arrival_datetime` fields are strings in the storage format
`MM/DD/YYYY HH:MM`, and every query that carries a `departure_datetime` or
`arrival_datetime` key *with string values for those keys*, `matches`
returns false: the record's field is parsed with the query format
`YYYY-MM-DD HH:MM`, the parse always fails, and the fail-closed rule makes
the criterion a non-match. -/
theorem c1_storage_records_never_match_dt_query (r q : RecordV)
    (ds as : String)
    (hrd : lookupV r "departure_datetime" = some (.vstr ds))
    (hra : lookupV r "arrival_datetime" = some (.vstr as))
    (hpd : (parseStorageDT ds).isSome = true)
    (hpa : (parseStorageDT as).isSome = true)
    (hqd : strOpt (lookupV q "departure_datetime") = true)
    (hqa : strOpt (lookupV q "arrival_datetime") = true)
    (hk : (lookupV q "departure_datetime").isSome = true ∨
          (lookupV q "arrival_datetime").isSome = true) :
    flight_matches_query r q = .ok false := by
  obtain ⟨dv, hdv⟩ := Option.isSome_iff_exists.mp hpd
  obtain ⟨av, hav⟩ := Option.isSome_iff_exists.mp hpa
  have hdn : parseQueryDT ds = none := storageDT_queryDT_disjoint hdv
  have han : parseQueryDT as = none := storageDT_queryDT_disjoint hav
  by_cases he : exactPass r q = true
  case neg =>
    simp only [Bool.not_eq_true] at he
    exact matches_of_exact_false he
  case pos =>
    cases hql : lookupV q "departure_datetime" with
    | some v =>
      rw [hql] at hqd
      obtain ⟨qs, rfl⟩ := strOpt_some hqd
      exact matches_of_dep_false he (dtCriterion_flight_noparse hql hrd hdn)
    | none =>
      rcases hk with hk1 | hk2
      · rw [hql] at hk1; cases hk1
      · obtain ⟨v, hqla⟩ := Option.isSome_iff_exists.mp hk2
        rw [hqla] at hqa
        obtain ⟨qs, rfl⟩ := strOpt_some hqa
        exact matches_of_arr_false he (dtCriterion_query_absent hql)
          (dtCriterion_flight_noparse hqla hra han)

/-- C1 witness: a concrete validated-format record against a concrete
string-valued datetime query is excluded. -/
theorem c1_witness :
    flight_matches_query
      [("departure_datetime", Value.vstr "01/15/2025 10:00"),
       ("arrival_datetime", Value.vstr "01/15/2025 18:00")]
      [("departure_datetime", Value.vstr "2025-01-16 00:00")] = .ok false :=
  c1_storage_records_never_match_dt_query
    [("departure_datetime", Value.vstr "01/15/2025 10:00"),
     ("arrival_datetime", Value.vstr "01/15/2025 18:00")]
    [("departure_datetime", Value.vstr "2025-01-16 00:00")]
    "01/15/2025 10:00" "01/15/2025 18:00"
    (by decide) (by decide) (by decide) (by decide) (by decide) (by decide)
    (Or.inl (by decide))

/-! ## Claim C2 -/

/-- C2 counterexample: with a numeric `departure_datetime` query value the
criterion neither passes nor fails closed — `matches` raises an uncaught
`TypeError` instead of returning false. -/
theorem c2_counterexample :
    flight_matches_query [] [("departure_datetime", Value.vnum (.fin 5))] =
      .error .typeError ∧
    flight_matches_query [] [("departure_datetime", Value.vnum (.fin 5))] ≠
      .ok false := by
  refine ⟨by decide, by decide⟩

/-- C2 (amended): when the query's `departure_datetime` and
`arrival_datetime` values are strings, each datetime criterion parses both
sides with the query format `YYYY-MM-DD HH:MM` and passes iff the record's
departure is `≥` (arrival is `≤`) the query's value; a record field that is
missing or fails to parse makes the criterion fail closed, as does an
unparseable query value. -/
theorem c2_dt_criterion_semantics (f q : RecordV) (qds qas : String)
    (hqd : lookupV q "departure_datetime" = some (.vstr qds))
    (hqa : lookupV q "arrival_datetime" = some (.vstr qas)) :
    ((parseQueryDT qds = none →
        dtCriterion f q "departure_datetime" true = .ok false) ∧
     (lookupV f "departure_datetime" = none →
        dtCriterion f q "departure_datetime" true = .ok false) ∧
     (∀ fs, lookupV f "departure_datetime" = some (.vstr fs) →
        parseQueryDT fs = none →
        dtCriterion f q "departure_datetime" true = .ok false) ∧
     (∀ qn fs fn, parseQueryDT qds = some qn →
        lookupV f "departure_datetime" = some (.vstr fs) →
        parseQueryDT fs = some fn →
        dtCriterion f q "departure_datetime" true = .ok (decide (qn ≤ fn)))) ∧
    ((parseQueryDT qas = none →
        dtCriterion f q "arrival_datetime" false = .ok false) ∧
     (lookupV f "arrival_datetime" = none →
        dtCriterion f q "arrival_datetime" false = .ok false) ∧
     (∀ fs, lookupV f "arrival_datetime" = some (.vstr fs) →
        parseQueryDT fs = none →
        dtCriterion f q "arrival_datetime" false = .ok false) ∧
     (∀ qn fs fn, parseQueryDT qas = some qn →
        lookupV f "arrival_datetime" = some (.vstr fs) →
        parseQueryDT fs = some fn →
        dtCriterion f q "arrival_datetime" false = .ok (decide (fn ≤ qn)))) := by
  refine ⟨⟨?_, ?_, ?_, ?_⟩, ⟨?_, ?_, ?_, ?_⟩⟩
  · exact fun hn => dtCriterion_query_noparse hqd hn
  · exact fun hm => dtCriterion_flight_missing hqd hm
  · exact fun fs hf hn => dtCriterion_flight_noparse hqd hf hn
  · intro qn fs fn hqp hf hfp
    have := dtCriterion_both_parse true hqd hqp hf hfp
    simpa using this
  · exact fun hn => dtCriterion_query_noparse hqa hn
  · exact fun hm => dtCriterion_flight_missing hqa hm
  · exact fun fs hf hn => dtCriterion_flight_noparse hqa hf hn
  · intro qn fs fn hqp hf hfp
    have := dtCriterion_both_parse false hqa hqp hf hfp
    simpa using this

/-- C2 witness: instantiate the criterion semantics at a concrete record
and query and read off the comparison results. -/
theorem c2_witness :
    ((parseQueryDT "2025-01-15 10:00" = none →
        dtCriterion [("departure_datetime", Value.vstr "bad")]
          [("departure_datetime", Value.vstr "2025-01-15 10:00"),
           ("arrival_datetime", Value.vstr "2025-01-15 18:00")]
          "departure_datetime" true = .ok false) ∧
     (lookupV [("departure_datetime", Value.vstr "bad")] "departure_datetime" = none →
        dtCriterion [("departure_datetime", Value.vstr "bad")]
          [("departure_datetime", Value.vstr "2025-01-15 10:00"),
           ("arrival_datetime", Value.vstr "2025-01-15 18:00")]
          "departure_datetime" true = .ok false) ∧
     (∀ fs, lookupV [("departure_datetime", Value.vstr "bad")] "departure_datetime" =
          some (.vstr fs) →
        parseQueryDT fs = none →
        dtCriterion [("departure_datetime", Value.vstr "bad")]
          [("departure_datetime", Value.vstr "2025-01-15 10:00"),
           ("arrival_datetime", Value.vstr "2025-01-15 18:00")]
          "departure_datetime" true = .ok false) ∧
     (∀ qn fs fn, parseQueryDT "2025-01-15 10:00" = some qn →
        lookupV [("departure_datetime", Value.vstr "bad")] "departure_datetime" =
          some (.vstr fs) →
        parseQueryDT fs = some fn →
        dtCriterion [("departure_datetime", Value.vstr "bad")]
          [("departure_datetime", Value.vstr "2025-01-15 10:00"),
           ("arrival_datetime", Value.vstr "2025-01-15 18:00")]
          "departure_datetime" true = .ok (decide (qn ≤ fn)))) ∧
    ((parseQueryDT "2025-01-15 18:00" = none →
        dtCriterion [("departure_datetime", Value.vstr "bad")]
          [("departure_datetime", Value.vstr "2025-01-15 10:00"),
           ("arrival_datetime", Value.vstr "2025-01-15 18:00")]
          "arrival_datetime" false = .ok false) ∧
     (lookupV [("departure_datetime", Value.vstr "bad")] "arrival_datetime" = none →
        dtCriterion [("departure_datetime", Value.vstr "bad")]
          [("departure_datetime", Value.vstr "2025-01-15 10:00"),
           ("arrival_datetime", Value.vstr "2025-01-15 18:00")]
          "arrival_datetime" false = .ok false) ∧
     (∀ fs, lookupV [("departure_datetime", Value.vstr "bad")] "arrival_datetime" =
          some (.vstr fs) →
        parseQueryDT fs = none →
        dtCriterion [("departure_datetime", Value.vstr "bad")]
          [("departure_datetime", Value.vstr "2025-01-15 10:00"),
           ("arrival_datetime", Value.vstr "2025-01-15 18:00")]
          "arrival_datetime" false = .ok false) ∧
     (∀ qn fs fn, parseQueryDT "2025-01-15 18:00" = some qn →
        lookupV [("departure_datetime", Value.vstr "bad")] "arrival_datetime" =
          some (.vstr fs) →
        parseQueryDT fs = some fn →
        dtCriterion [("departure_datetime", Value.vstr "bad")]
          [("departure_datetime", Value.vstr "2025-01-15 10:00"),
           ("arrival_datetime", Value.vstr "2025-01-15 18:00")]
          "arrival_datetime" false = .ok (decide (fn ≤ qn)))) :=
  c2_dt_criterion_semantics
    [("departure_datetime", Value.vstr "bad")]
    [("departure_datetime", Value.vstr "2025-01-15 10:00"),
     ("arrival_datetime", Value.vstr "2025-01-15 18:00")]
    "2025-01-15 10:00" "2025-01-15 18:00" (by decide) (by decide)

/-! ## Claim C3 -/

/-- C3 counterexample: a record lacking `flight_id`, queried with a `null`
`flight_id` value, *matches*: `flight.get` returns `None` for the missing
field, `None != None` is false, and no other criterion applies. -/
theorem c3_counterexample :
    flight_matches_query [] [("flight_id", Value.vnull)] = .ok true ∧
    flight_matches_query [] [("flight_id", Value.vnull)] ≠ .ok false := by
  refine ⟨by decide, by decide⟩

/-- The query values the matcher can evaluate without a `TypeError`:
datetime values strings, price value a string or a number. -/
def queryWellTyped (q : RecordV) : Bool :=
  strOpt (lookupV q "departure_datetime") &&
  strOpt (lookupV q "arrival_datetime") &&
  numStrOpt (lookupV q "price")

/-- The record's datetime fields, when present, are strings. -/
def recordDTStrings (r : RecordV) : Bool :=
  strOpt (lookupV r "departure_datetime") &&
  strOpt (lookupV r "arrival_datetime")

/-- C3 (amended): for a well-typed query and a record with string datetime
fields, a record lacking a field referenced by a present query key does not
match, provided the query's value at that key is not `null` — a `null`
exact-match value compares equal to the missing-lookup default `None`, and
the record then matches that criterion. -/
theorem c3_missing_field_no_match (r q : RecordV) (k : String) (v : Value)
    (hq : queryWellTyped q = true) (hr : recordDTStrings r = true)
    (hk : k ∈ required_fields) (hkq : lookupV q k = some v)
    (hmiss : lookupV r k = none) (hnull : v ≠ .vnull) :
    flight_matches_query r q = .ok false := by
  unfold queryWellTyped at hq
  simp only [Bool.and_eq_true] at hq
  obtain ⟨⟨hqdep, hqarr⟩, hqprice⟩ := hq
  unfold recordDTStrings at hr
  simp only [Bool.and_eq_true] at hr
  obtain ⟨hrdep, hrarr⟩ := hr
  fin_cases hk
  · -- flight_id
    apply matches_of_exact_false
    unfold exactPass exactCheck
    rw [hkq, hmiss]
    simp [pyEq_vnull_left hnull]
  · -- origin
    apply matches_of_exact_false
    unfold exactPass exactCheck
    rw [hkq, hmiss]
    simp [pyEq_vnull_left hnull]
  · -- destination
    apply matches_of_exact_false
    unfold exactPass exactCheck
    rw [hkq, hmiss]
    simp [pyEq_vnull_left hnull]
  · -- departure_datetime
    by_cases he : exactPass r q = true
    case neg =>
      simp only [Bool.not_eq_true] at he
      exact matches_of_exact_false he
    case pos =>
      rw [hkq] at hqdep
      obtain ⟨s, rfl⟩ := strOpt_some hqdep
      exact matches_of_dep_false he (dtCriterion_flight_missing hkq hmiss)
  · -- arrival_datetime
    by_cases he : exactPass r q = true
    case neg =>
      simp only [Bool.not_eq_true] at he
      exact matches_of_exact_false he
    case pos =>
      obtain ⟨b1, hb1⟩ :=
        dtCriterion_safe "departure_datetime" true hqdep hrdep
      cases b1 with
      | false => exact matches_of_dep_false he hb1
      | true =>
        rw [hkq] at hqarr
        obtain ⟨s, rfl⟩ := strOpt_some hqarr
        exact matches_of_arr_false he hb1 (dtCriterion_flight_missing hkq hmiss)
  · -- price
    by_cases he : exactPass r q = true
    case neg =>
      simp only [Bool.not_eq_true] at he
      exact matches_of_exact_false he
    case pos =>
      obtain ⟨b1, hb1⟩ :=
        dtCriterion_safe "departure_datetime" true hqdep hrdep
      cases b1 with
      | false => exact matches_of_dep_false he hb1
      | true =>
        obtain ⟨b2, hb2⟩ :=
          dtCriterion_safe "arrival_datetime" false hqarr hrarr
        cases b2 with
        | false => exact matches_of_arr_false he hb1 hb2
        | true =>
          rw [hkq] at hqprice
          exact matches_of_price he hb1 hb2
            (priceCriterion_flight_missing hkq hqprice hmiss)

/-- C3 witness: a record lacking `flight_id` does not match a query with a
(non-null) `flight_id` value. -/
theorem c3_witness :
    flight_matches_query [] [("flight_id", Value.vstr "AB12")] = .ok false :=
  c3_missing_field_no_match [] [("flight_id", Value.vstr "AB12")]
    "flight_id" (Value.vstr "AB12")
    (by decide) (by decide) (by decide) (by decide) (by decide) (by decide)

/-! ## Claim C4 -/

/-- C4 counterexample: `matches` on a record and a query with a `null`
price value returns no boolean at all — the `TypeError` from `float(None)`
is not caught by the `except (ValueError, KeyError)` clause. -/
theorem c4_counterexample :
    flight_matches_query [] [("price", Value.vnull)] = .error .typeError ∧
    flight_matches_query [] [("price", Value.vnull)] ≠ .ok true ∧
    flight_matches_query [] [("price", Value.vnull)] ≠ .ok false := by
  refine ⟨by decide, by decide, by decide⟩

/-- Both sides of every fallible criterion are well-shaped: datetime values
strings, price values strings or numbers (or absent). -/
def safePair (f q : RecordV) : Bool :=
  strOpt (lookupV q "departure_datetime") &&
  strOpt (lookupV f "departure_datetime") &&
  strOpt (lookupV q "arrival_datetime") &&
  strOpt (lookupV f "arrival_datetime") &&
  numStrOpt (lookupV q "price") &&
  numStrOpt (lookupV f "price")

/-- C4 (amended): `matches` terminates with a definite boolean whenever its
datetime values (both sides) are strings and its price values are strings
or numbers; and `validate` always returns a verdict consistent with its
reason list — success exactly when the list is empty.  (As every Lean
function, the embedded `validate_flight` and `flight_matches_query` are
total; the boolean-result part fails in general, see the counterexample.) -/
theorem c4_totality (f q : RecordV) (raw : Raw) (h : safePair f q = true) :
    (∃ b, flight_matches_query f q = .ok b) ∧
    ((validate_flight raw).1 = true ↔ (validate_flight raw).2 = []) := by
  constructor
  · unfold safePair at h
    simp only [Bool.and_eq_true] at h
    obtain ⟨⟨⟨⟨⟨h1, h2⟩, h3⟩, h4⟩, h5⟩, h6⟩ := h
    by_cases he : exactPass f q = true
    case neg =>
      simp only [Bool.not_eq_true] at he
      exact ⟨false, matches_of_exact_false he⟩
    case pos =>
      obtain ⟨b1, hb1⟩ :=
        dtCriterion_safe "departure_datetime" true h1 h2
      cases b1 with
      | false => exact ⟨false, matches_of_dep_false he hb1⟩
      | true =>
        obtain ⟨b2, hb2⟩ :=
          dtCriterion_safe "arrival_datetime" false h3 h4
        cases b2 with
        | false => exact ⟨false, matches_of_arr_false he hb1 hb2⟩
        | true =>
          obtain ⟨b3, hb3⟩ := priceCriterion_safe h5 h6
          exact ⟨b3, matches_of_price he hb1 hb2 hb3⟩
  · unfold validate_flight
    by_cases hm : missingErrs raw = []
    · simp [hm, List.isEmpty_iff]
    · simp [hm]

/-- C4 witness: a concrete well-shaped record/query pair gets a definite
boolean, and a concrete raw record gets a verdict consistent with its
reason list. -/
theorem c4_witness :
    (∃ b, flight_matches_query [("price", Value.vnum (.fin 10))]
        [("price", Value.vstr "20")] = .ok b) ∧
    ((validate_flight []).1 = true ↔ (validate_flight []).2 = []) :=
  c4_totality [("price", Value.vnum (.fin 10))] [("price", Value.vstr "20")]
    [] (by decide)

/-! ### Validator helper lemmas -/

theorem data_append_eq (a b : String) : (a ++ b).data = a.data ++ b.data := rfl

theorem missingMsg_inj : Function.Injective missingMsg := by
  intro a b h
  unfold missingMsg at h
  have hd2 : "missing ".data ++ (a.data ++ " field".data) =
      "missing ".data ++ (b.data ++ " field".data) := by
    have := congrArg String.data h
    simpa [data_append_eq, List.append_assoc] using this
  exact String.ext (List.append_cancel_right (List.append_cancel_left hd2))

theorem count_filter_split {p : String → Bool} (l : List String) (a : String) :
    (l.filter p).count a = if p a = true then l.count a else 0 := by
  induction l with
  | nil => simp
  | cons x xs ih =>
    by_cases hxa : x = a
    · subst hxa
      by_cases hx : p x = true <;> simp [List.filter_cons, hx, List.count_cons, ih]
    · by_cases hx : p x = true <;>
        simp [List.filter_cons, hx, hxa, List.count_cons, ih]

/-! ## Claim C5 -/

/-- C5: if at least one required field is absent or empty, validation fails
and returns exactly one `missing <field> field` reason per missing field, in
the fixed field order, and nothing else — the remaining checks never run. -/
theorem c5_missing_fields_short_circuit (raw : Raw)
    (h : required_fields.any (fun f => isMissing raw f) = true) :
    validate_flight raw = (false, missingErrs raw) ∧
    (∀ f ∈ required_fields,
      (validate_flight raw).2.count (missingMsg f) =
        if isMissing raw f = true then 1 else 0) ∧
    (∀ s ∈ (validate_flight raw).2,
      ∃ f, f ∈ required_fields ∧ isMissing raw f = true ∧ s = missingMsg f) := by
  have heq := validate_flight_of_missing h
  refine ⟨heq, ?_, ?_⟩
  · intro f hf
    rw [heq]
    show (missingErrs raw).count (missingMsg f) = _
    unfold missingErrs
    rw [List.count_map_of_injective _ _ missingMsg_inj, count_filter_split]
    by_cases hm : isMissing raw f = true
    · rw [if_pos hm, if_pos hm]
      fin_cases hf <;> decide
    · rw [if_neg hm, if_neg hm]
  · intro s hs
    rw [heq] at hs
    unfold missingErrs at hs
    obtain ⟨f, hf, rfl⟩ := List.mem_map.mp hs
    obtain ⟨hfm, hp⟩ := List.mem_filter.mp hf
    exact ⟨f, hfm, hp, rfl⟩

/-- C5 witness: the empty raw record misses all six fields and gets exactly
the six missing-field reasons. -/
theorem c5_witness :
    validate_flight [] = (false, missingErrs []) ∧
    (∀ f ∈ required_fields,
      (validate_flight []).2.count (missingMsg f) =
        if isMissing [] f = true then 1 else 0) ∧
    (∀ s ∈ (validate_flight []).2,
      ∃ f, f ∈ required_fields ∧ isMissing [] f = true ∧ s = missingMsg f) :=
  c5_missing_fields_short_circuit [] (by decide)

/-! ## Claim C6 -/

/-- C6: with all six required fields present and non-empty, checks 2–5 all
run and their reasons accumulate in the fixed order (flight_id, origin,
destination, datetimes, price); validation succeeds iff the accumulated
list is empty, and on success the record is converted to its typed form
with the price coerced by `float()` and the other fields kept as the
validated strings. -/
theorem c6_checks_accumulate (raw : Raw) (h : allPresent raw = true) :
    validate_flight raw = ((accumulatedErrs raw).isEmpty, accumulatedErrs raw) ∧
    ((validate_flight raw).1 = true ↔ accumulatedErrs raw = []) ∧
    ((validate_flight raw).1 = true →
      ∃ p, pyFloatOfString (getField raw "price") = some p ∧
        convert_to_typed_flight raw = some
          [("flight_id", Value.vstr (getField raw "flight_id")),
           ("origin", Value.vstr (getField raw "origin")),
           ("destination", Value.vstr (getField raw "destination")),
           ("departure_datetime", Value.vstr (getField raw "departure_datetime")),
           ("arrival_datetime", Value.vstr (getField raw "arrival_datetime")),
           ("price", Value.vnum p)]) := by
  have heq := validate_flight_of_allPresent h
  refine ⟨heq, ?_, ?_⟩
  · rw [heq]
    exact List.isEmpty_iff
  · intro hv
    rw [heq] at hv
    simp only [List.isEmpty_iff] at hv
    have hp : priceErrsOf (getField raw "price") = [] := by
      have hsub : ∀ s, s ∈ priceErrsOf (getField raw "price") →
          s ∈ accumulatedErrs raw := by
        intro s hs
        unfold accumulatedErrs
        simp only [List.mem_append]
        tauto
      rcases hpp : priceErrsOf (getField raw "price") with _ | ⟨x, xs⟩
      · rfl
      · exfalso
        have hx := hsub x (by rw [hpp]; exact List.mem_cons_self _ _)
        rw [hv] at hx
        cases hx
    unfold priceErrsOf at hp
    cases hps : pyFloatOfString (getField raw "price") with
    | none => rw [hps] at hp; simp at hp
    | some p =>
      refine ⟨p, rfl, ?_⟩
      unfold convert_to_typed_flight
      rw [hps]
      rfl

/-- C6 witness: a concrete fully valid raw record validates to `(true, [])`
and converts to the typed record. -/
theorem c6_witness :
    validate_flight
      [("flight_id", "AB12"), ("origin", "LHR"), ("destination", "JFK"),
       ("departure_datetime", "01/15/2025 10:00"),
       ("arrival_datetime", "01/15/2025 18:00"), ("price", "450.0")] =
      ((accumulatedErrs
        [("flight_id", "AB12"), ("origin", "LHR"), ("destination", "JFK"),
         ("departure_datetime", "01/15/2025 10:00"),
         ("arrival_datetime", "01/15/2025 18:00"), ("price", "450.0")]).isEmpty,
       accumulatedErrs
        [("flight_id", "AB12"), ("origin", "LHR"), ("destination", "JFK"),
         ("departure_datetime", "01/15/2025 10:00"),
         ("arrival_datetime", "01/15/2025 18:00"), ("price", "450.0")]) ∧
    ((validate_flight
        [("flight_id", "AB12"), ("origin", "LHR"), ("destination", "JFK"),
         ("departure_datetime", "01/15/2025 10:00"),
         ("arrival_datetime", "01/15/2025 18:00"), ("price", "450.0")]).1 = true ↔
      accumulatedErrs
        [("flight_id", "AB12"), ("origin", "LHR"), ("destination", "JFK"),
         ("departure_datetime", "01/15/2025 10:00"),
         ("arrival_datetime", "01/15/2025 18:00"), ("price", "450.0")] = []) ∧
    ((validate_flight
        [("flight_id", "AB12"), ("origin", "LHR"), ("destination", "JFK"),
         ("departure_datetime", "01/15/2025 10:00"),
         ("arrival_datetime", "01/15/2025 18:00"), ("price", "450.0")]).1 = true →
      ∃ p, pyFloatOfString (getField
          [("flight_id", "AB12"), ("origin", "LHR"), ("destination", "JFK"),
           ("departure_datetime", "01/15/2025 10:00"),
           ("arrival_datetime", "01/15/2025 18:00"), ("price", "450.0")] "price") =
          some p ∧
        convert_to_typed_flight
          [("flight_id", "AB12"), ("origin", "LHR"), ("destination", "JFK"),
           ("departure_datetime", "01/15/2025 10:00"),
           ("arrival_datetime", "01/15/2025 18:00"), ("price", "450.0")] = some
          [("flight_id", Value.vstr (getField
              [("flight_id", "AB12"), ("origin", "LHR"), ("destination", "JFK"),
               ("departure_datetime", "01/15/2025 10:00"),
               ("arrival_datetime", "01/15/2025 18:00"), ("price", "450.0")]
              "flight_id")),
           ("origin", Value.vstr (getField
              [("flight_id", "AB12"), ("origin", "LHR"), ("destination", "JFK"),
               ("departure_datetime", "01/15/2025 10:00"),
               ("arrival_datetime", "01/15/2025 18:00"), ("price", "450.0")]
              "origin")),
           ("destination", Value.vstr (getField
              [("flight_id", "AB12"), ("origin", "LHR"), ("destination", "JFK"),
               ("departure_datetime", "01/15/2025 10:00"),
               ("arrival_datetime", "01/15/2025 18:00"), ("price", "450.0")]
              "destination")),
           ("departure_datetime", Value.vstr (getField
              [("flight_id", "AB12"), ("origin", "LHR"), ("destination", "JFK"),
               ("departure_datetime", "01/15/2025 10:00"),
               ("arrival_datetime", "01/15/2025 18:00"), ("price", "450.0")]
              "departure_datetime")),
           ("arrival_datetime", Value.vstr (getField
              [("flight_id", "AB12"), ("origin", "LHR"), ("destination", "JFK"),
               ("departure_datetime", "01/15/2025 10:00"),
               ("arrival_datetime", "01/15/2025 18:00"), ("price", "450.0")]
              "arrival_datetime")),
           ("price", Value.vnum p)]) :=
  c6_checks_accumulate
    [("flight_id", "AB12"), ("origin", "LHR"), ("destination", "JFK"),
     ("departure_datetime", "01/15/2025 10:00"),
     ("arrival_datetime", "01/15/2025 18:00"), ("price", "450.0")]
    (by decide)

/-! ### Which reasons each check can produce -/

theorem priceErrsOf_mem_cases {p s : String} (hs : s ∈ priceErrsOf p) :
    s = "invalid price format" ∨ s = "negative price value" := by
  unfold priceErrsOf at hs
  rcases hp : pyFloatOfString p with _ | v <;> rw [hp] at hs
  · simp at hs
    exact Or.inl hs
  · rw [mem_ite_nil_then] at hs
    exact Or.inr hs.2

theorem dtErrsOf_mem_cases {d a s : String} (hs : s ∈ dtErrsOf d a) :
    s = "invalid departure datetime" ∨ s = "invalid arrival datetime" ∨
    s = "arrival before departure" := by
  unfold dtErrsOf at hs
  rcases hd : parseStorageDT d with _ | dv <;>
    rcases ha : parseStorageDT a with _ | av <;>
    rw [hd, ha] at hs <;>
    simp only [List.mem_append, mem_ite_nil_then, mem_ite_nil_else] at hs <;>
    simp at hs <;>
    tauto

/-- The two price reasons can only come from the price check. -/
theorem mem_accumulated_price (raw : Raw) {s : String}
    (hone : s = "invalid price format" ∨ s = "negative price value") :
    (s ∈ accumulatedErrs raw ↔ s ∈ priceErrsOf (getField raw "price")) := by
  unfold accumulatedErrs
  simp only [List.mem_append, mem_ite_nil_else]
  constructor
  · rintro ((((⟨_, rfl⟩ | ⟨_, rfl⟩) | ⟨_, rfl⟩) | hdt) | hp)
    · simp at hone
    · simp at hone
    · simp at hone
    · rcases dtErrsOf_mem_cases hdt with rfl | rfl | rfl <;> simp at hone
    · exact hp
  · intro hp
    tauto

/-- The three datetime reasons can only come from the datetime checks. -/
theorem mem_accumulated_dt (raw : Raw) {s : String}
    (hone : s = "invalid departure datetime" ∨ s = "invalid arrival datetime" ∨
            s = "arrival before departure") :
    (s ∈ accumulatedErrs raw ↔
     s ∈ dtErrsOf (getField raw "departure_datetime")
          (getField raw "arrival_datetime")) := by
  unfold accumulatedErrs
  simp only [List.mem_append, mem_ite_nil_else]
  constructor
  · rintro ((((⟨_, rfl⟩ | ⟨_, rfl⟩) | ⟨_, rfl⟩) | hdt) | hp)
    · simp at hone
    · simp at hone
    · simp at hone
    · exact hdt
    · rcases priceErrsOf_mem_cases hp with rfl | rfl <;> simp at hone
  · intro hdt
    tauto

/-! ## Claim C7 -/

/-- C7 counterexample: a raw record whose two datetimes parse under the
storage format and whose arrival is not later than its departure, but whose
`price` field is missing, is rejected with only the missing-field reason —
the ordering check never runs, so "arrival before departure" is absent,
contradicting the claim as stated. -/
theorem c7_counterexample :
    (parseStorageDT "01/15/2025 18:00").isSome = true ∧
    (parseStorageDT "01/15/2025 10:00").isSome = true ∧
    (parseStorageDT "01/15/2025 10:00").getD 0 ≤
      (parseStorageDT "01/15/2025 18:00").getD 0 ∧
    validate_flight
      [("flight_id", "AB12"), ("origin", "LHR"), ("destination", "JFK"),
       ("departure_datetime", "01/15/2025 18:00"),
       ("arrival_datetime", "01/15/2025 10:00")] =
      (false, ["missing price field"]) ∧
    "arrival before departure" ∉
      (validate_flight
        [("flight_id", "AB12"), ("origin", "LHR"), ("destination", "JFK"),
         ("departure_datetime", "01/15/2025 18:00"),
         ("arrival_datetime", "01/15/2025 10:00")]).2 := by
  refine ⟨by decide, by decide, by decide, by decide, by decide⟩

/-- C7 (amended): for a raw record with all six required fields present and
non-empty: if both datetimes parse under the storage format and arrival `≤`
departure, the reason list contains "arrival before departure" and neither
format reason; if a datetime fails to parse, the corresponding format
reason is present and the ordering reason never is. -/
theorem c7_ordering_check (raw : Raw) (h : allPresent raw = true) :
    (∀ d a, parseStorageDT (getField raw "departure_datetime") = some d →
       parseStorageDT (getField raw "arrival_datetime") = some a → a ≤ d →
       ("arrival before departure" ∈ (validate_flight raw).2 ∧
        "invalid departure datetime" ∉ (validate_flight raw).2 ∧
        "invalid arrival datetime" ∉ (validate_flight raw).2)) ∧
    (parseStorageDT (getField raw "departure_datetime") = none →
       ("invalid departure datetime" ∈ (validate_flight raw).2 ∧
        "arrival before departure" ∉ (validate_flight raw).2)) ∧
    (parseStorageDT (getField raw "arrival_datetime") = none →
       ("invalid arrival datetime" ∈ (validate_flight raw).2 ∧
        "arrival before departure" ∉ (validate_flight raw).2)) := by
  have heq := validate_flight_of_allPresent h
  have hsnd : (validate_flight raw).2 = accumulatedErrs raw := by rw [heq]
  refine ⟨?_, ?_, ?_⟩
  · intro d a hd ha hle
    refine ⟨?_, ?_, ?_⟩
    · rw [hsnd, mem_accumulated_dt raw (by tauto)]
      unfold dtErrsOf
      rw [hd, ha]
      simp [hle]
    · rw [hsnd, mem_accumulated_dt raw (by tauto)]
      unfold dtErrsOf
      rw [hd, ha]
      simp [hle]
    · rw [hsnd, mem_accumulated_dt raw (by tauto)]
      unfold dtErrsOf
      rw [hd, ha]
      simp [hle]
  · intro hd
    constructor
    · rw [hsnd, mem_accumulated_dt raw (by tauto)]
      unfold dtErrsOf
      rw [hd]
      rcases ha : parseStorageDT (getField raw "arrival_datetime") with _ | av <;>
        simp
    · rw [hsnd, mem_accumulated_dt raw (by tauto)]
      unfold dtErrsOf
      rw [hd]
      rcases ha : parseStorageDT (getField raw "arrival_datetime") with _ | av <;>
        simp [mem_ite_nil_then]
  · intro ha
    constructor
    · rw [hsnd, mem_accumulated_dt raw (by tauto)]
      unfold dtErrsOf
      rw [ha]
      rcases hd : parseStorageDT (getField raw "departure_datetime") with _ | dv <;>
        simp
    · rw [hsnd, mem_accumulated_dt raw (by tauto)]
      unfold dtErrsOf
      rw [ha]
      rcases hd : parseStorageDT (getField raw "departure_datetime") with _ | dv <;>
        simp [mem_ite_nil_then]

/-- C7 witness: a complete concrete record with arrival at or before
departure gets the ordering reason and no format reason. -/
theorem c7_witness :
    (∀ d a, parseStorageDT (getField
        [("flight_id", "AB12"), ("origin", "LHR"), ("destination", "JFK"),
         ("departure_datetime", "01/15/2025 18:00"),
         ("arrival_datetime", "01/15/2025 10:00"), ("price", "450.0")]
        "departure_datetime") = some d →
       parseStorageDT (getField
        [("flight_id", "AB12"), ("origin", "LHR"), ("destination", "JFK"),
         ("departure_datetime", "01/15/2025 18:00"),
         ("arrival_datetime", "01/15/2025 10:00"), ("price", "450.0")]
        "arrival_datetime") = some a → a ≤ d →
       ("arrival before departure" ∈ (validate_flight
          [("flight_id", "AB12"), ("origin", "LHR"), ("destination", "JFK"),
           ("departure_datetime", "01/15/2025 18:00"),
           ("arrival_datetime", "01/15/2025 10:00"), ("price", "450.0")]).2 ∧
        "invalid departure datetime" ∉ (validate_flight
          [("flight_id", "AB12"), ("origin", "LHR"), ("destination", "JFK"),
           ("departure_datetime", "01/15/2025 18:00"),
           ("arrival_datetime", "01/15/2025 10:00"), ("price", "450.0")]).2 ∧
        "invalid arrival datetime" ∉ (validate_flight
          [("flight_id", "AB12"), ("origin", "LHR"), ("destination", "JFK"),
           ("departure_datetime", "01/15/2025 18:00"),
           ("arrival_datetime", "01/15/2025 10:00"), ("price", "450.0")]).2)) ∧
    (parseStorageDT (getField
        [("flight_id", "AB12"), ("origin", "LHR"), ("destination", "JFK"),
         ("departure_datetime", "01/15/2025 18:00"),
         ("arrival_datetime", "01/15/2025 10:00"), ("price", "450.0")]
        "departure_datetime") = none →
       ("invalid departure datetime" ∈ (validate_flight
          [("flight_id", "AB12"), ("origin", "LHR"), ("destination", "JFK"),
           ("departure_datetime", "01/15/2025 18:00"),
           ("arrival_datetime", "01/15/2025 10:00"), ("price", "450.0")]).2 ∧
        "arrival before departure" ∉ (validate_flight
          [("flight_id", "AB12"), ("origin", "LHR"), ("destination", "JFK"),
           ("departure_datetime", "01/15/2025 18:00"),
           ("arrival_datetime", "01/15/2025 10:00"), ("price", "450.0")]).2)) ∧
    (parseStorageDT (getField
        [("flight_id", "AB12"), ("origin", "LHR"), ("destination", "JFK"),
         ("departure_datetime", "01/15/2025 18:00"),
         ("arrival_datetime", "01/15/2025 10:00"), ("price", "450.0")]
        "arrival_datetime") = none →
       ("invalid arrival datetime" ∈ (validate_flight
          [("flight_id", "AB12"), ("origin", "LHR"), ("destination", "JFK"),
           ("departure_datetime", "01/15/2025 18:00"),
           ("arrival_datetime", "01/15/2025 10:00"), ("price", "450.0")]).2 ∧
        "arrival before departure" ∉ (validate_flight
          [("flight_id", "AB12"), ("origin", "LHR"), ("destination", "JFK"),
           ("departure_datetime", "01/15/2025 18:00"),
           ("arrival_datetime", "01/15/2025 10:00"), ("price", "450.0")]).2)) :=
  c7_ordering_check
    [("flight_id", "AB12"), ("origin", "LHR"), ("destination", "JFK"),
     ("departure_datetime", "01/15/2025 18:00"),
     ("arrival_datetime", "01/15/2025 10:00"), ("price", "450.0")]
    (by decide)

/-! ## Claim C8 -/

theorem mem_priceErrs_format {p : String} :
    ("invalid price format" ∈ priceErrsOf p) ↔ pyFloatOfString p = none := by
  unfold priceErrsOf
  rcases hp : pyFloatOfString p with _ | v
  · simp
  · simp [mem_ite_nil_then]

theorem mem_priceErrs_neg {p : String} :
    ("negative price value" ∈ priceErrsOf p) ↔
    (∃ v, pyFloatOfString p = some v ∧ pfLe v (.fin 0) = true) := by
  unfold priceErrsOf
  rcases hp : pyFloatOfString p with _ | v
  · simp
  · simp [mem_ite_nil_then]

theorem priceErrsOf_eq_nil_iff {p : String} :
    priceErrsOf p = [] ↔
    ∃ v, pyFloatOfString p = some v ∧ pfLe v (.fin 0) = false := by
  unfold priceErrsOf
  rcases hp : pyFloatOfString p with _ | v
  · simp
  · by_cases hle : pfLe v (.fin 0) = true
    · simp [hle]
    · simp [hle]

/-- C8 counterexample: the price string `"nan"` parses (`float('nan')`),
`nan <= 0` is false, so no price reason is produced and the record is
accepted — yet its typed price is `nan`, which is not strictly greater
than zero, contradicting the claim's final clause. -/
theorem c8_counterexample :
    validate_flight
      [("flight_id", "AB12"), ("origin", "LHR"), ("destination", "JFK"),
       ("departure_datetime", "01/15/2025 10:00"),
       ("arrival_datetime", "01/15/2025 18:00"), ("price", "nan")] =
      (true, []) ∧
    pyFloatOfString "nan" = some .nan ∧
    convert_to_typed_flight
      [("flight_id", "AB12"), ("origin", "LHR"), ("destination", "JFK"),
       ("departure_datetime", "01/15/2025 10:00"),
       ("arrival_datetime", "01/15/2025 18:00"), ("price", "nan")] = some
      [("flight_id", Value.vstr "AB12"), ("origin", Value.vstr "LHR"),
       ("destination", Value.vstr "JFK"),
       ("departure_datetime", Value.vstr "01/15/2025 10:00"),
       ("arrival_datetime", Value.vstr "01/15/2025 18:00"),
       ("price", Value.vnum .nan)] ∧
    pfLt (.fin 0) .nan = false := by
  refine ⟨by decide, by decide, by decide, by decide⟩

/-- C8 (amended): with all required fields present and non-empty, the price
check yields at most one reason — "invalid price format" iff the price
string does not parse under `float()`, "negative price value" iff it parses
to a value `<= 0` in IEEE order, never both — and an accepted record's
price is never `<= 0`; it is strictly positive unless the price parsed to
`nan`, which is accepted (NaN compares false in every IEEE comparison). -/
theorem c8_price_check (raw : Raw) (h : allPresent raw = true) :
    ("invalid price format" ∈ (validate_flight raw).2 ↔
      pyFloatOfString (getField raw "price") = none) ∧
    ("negative price value" ∈ (validate_flight raw).2 ↔
      (∃ v, pyFloatOfString (getField raw "price") = some v ∧
        pfLe v (.fin 0) = true)) ∧
    ¬("invalid price format" ∈ (validate_flight raw).2 ∧
      "negative price value" ∈ (validate_flight raw).2) ∧
    ((validate_flight raw).1 = true →
      ∃ v, pyFloatOfString (getField raw "price") = some v ∧
        pfLe v (.fin 0) = false) := by
  have heq := validate_flight_of_allPresent h
  have hsnd : (validate_flight raw).2 = accumulatedErrs raw := by rw [heq]
  have hfmt : ("invalid price format" ∈ (validate_flight raw).2 ↔
      pyFloatOfString (getField raw "price") = none) := by
    rw [hsnd, mem_accumulated_price raw (Or.inl rfl), mem_priceErrs_format]
  have hneg : ("negative price value" ∈ (validate_flight raw).2 ↔
      (∃ v, pyFloatOfString (getField raw "price") = some v ∧
        pfLe v (.fin 0) = true)) := by
    rw [hsnd, mem_accumulated_price raw (Or.inr rfl), mem_priceErrs_neg]
  refine ⟨hfmt, hneg, ?_, ?_⟩
  · rintro ⟨h1, h2⟩
    rw [hfmt] at h1
    rw [hneg] at h2
    obtain ⟨v, hv, _⟩ := h2
    rw [h1] at hv
    cases hv
  · intro hv
    rw [heq] at hv
    simp only [List.isEmpty_iff] at hv
    have hp : priceErrsOf (getField raw "price") = [] := by
      have hsub : ∀ s, s ∈ priceErrsOf (getField raw "price") →
          s ∈ accumulatedErrs raw := by
        intro s hs
        unfold accumulatedErrs
        simp only [List.mem_append]
        tauto
      rcases hpp : priceErrsOf (getField raw "price") with _ | ⟨x, xs⟩
      · rfl
      · exfalso
        have hx := hsub x (by rw [hpp]; exact List.mem_cons_self _ _)
        rw [hv] at hx
        cases hx
    exact priceErrsOf_eq_nil_iff.mp hp

/-- C8 witness: a concrete record with price `"-10"` — the parse succeeds,
the value is `<= 0`, exactly the "negative price value" reason holds. -/
theorem c8_witness :
    ("invalid price format" ∈ (validate_flight
        [("flight_id", "AB12"), ("origin", "LHR"), ("destination", "JFK"),
         ("departure_datetime", "01/15/2025 10:00"),
         ("arrival_datetime", "01/15/2025 18:00"), ("price", "-10")]).2 ↔
      pyFloatOfString (getField
        [("flight_id", "AB12"), ("origin", "LHR"), ("destination", "JFK"),
         ("departure_datetime", "01/15/2025 10:00"),
         ("arrival_datetime", "01/15/2025 18:00"), ("price", "-10")]
        "price") = none) ∧
    ("negative price value" ∈ (validate_flight
        [("flight_id", "AB12"), ("origin", "LHR"), ("destination", "JFK"),
         ("departure_datetime", "01/15/2025 10:00"),
         ("arrival_datetime", "01/15/2025 18:00"), ("price", "-10")]).2 ↔
      (∃ v, pyFloatOfString (getField
          [("flight_id", "AB12"), ("origin", "LHR"), ("destination", "JFK"),
           ("departure_datetime", "01/15/2025 10:00"),
           ("arrival_datetime", "01/15/2025 18:00"), ("price", "-10")]
          "price") = some v ∧ pfLe v (.fin 0) = true)) ∧
    ¬("invalid price format" ∈ (validate_flight
        [("flight_id", "AB12"), ("origin", "LHR"), ("destination", "JFK"),
         ("departure_datetime", "01/15/2025 10:00"),
         ("arrival_datetime", "01/15/2025 18:00"), ("price", "-10")]).2 ∧
      "negative price value" ∈ (validate_flight
        [("flight_id", "AB12"), ("origin", "LHR"), ("destination", "JFK"),
         ("departure_datetime", "01/15/2025 10:00"),
         ("arrival_datetime", "01/15/2025 18:00"), ("price", "-10")]).2) ∧
    ((validate_flight
        [("flight_id", "AB12"), ("origin", "LHR"), ("destination", "JFK"),
         ("departure_datetime", "01/15/2025 10:00"),
         ("arrival_datetime", "01/15/2025 18:00"), ("price", "-10")]).1 = true →
      ∃ v, pyFloatOfString (getField
          [("flight_id", "AB12"), ("origin", "LHR"), ("destination", "JFK"),
           ("departure_datetime", "01/15/2025 10:00"),
           ("arrival_datetime", "01/15/2025 18:00"), ("price", "-10")]
          "price") = some v ∧ pfLe v (.fin 0) = false) :=
  c8_price_check
    [("flight_id", "AB12"), ("origin", "LHR"), ("destination", "JFK"),
     ("departure_datetime", "01/15/2025 10:00"),
     ("arrival_datetime", "01/15/2025 18:00"), ("price", "-10")]
    (by decide)

/-! ## Claim C9 -/

/-- C9 counterexample: when a record makes `matches` raise (here a `null`
datetime query value), `execute_query` raises too instead of returning the
filtered list, so it is not a total order-preserving filter. -/
theorem c9_counterexample :
    execute_query [[]] [("departure_datetime", Value.vnull)] =
      .error .typeError ∧
    execute_query [[]] [("departure_datetime", Value.vnull)] ≠
      .ok (([[]] : List RecordV).filter
        (fun fl => matchB fl [("departure_datetime", Value.vnull)])) := by
  refine ⟨by decide, by decide⟩

/-- C9 (amended): whenever `matches` returns a definite boolean on every
record of the working set, `execute_query` is the order-preserving filter
of the set by `matches`; and a query with zero keys matches every record,
so `execute_query` returns the whole working set unchanged.  If some
`matches` call raises, the whole `execute_query` call raises. -/
theorem c9_execute_is_filter (flights : List RecordV) (q : RecordV)
    (h : ∀ fl ∈ flights, ∃ b, flight_matches_query fl q = .ok b) :
    execute_query flights q = .ok (flights.filter (fun fl => matchB fl q)) ∧
    execute_query flights [] = .ok flights := by
  constructor
  · unfold execute_query
    have hE : ∀ fl ∈ flights, ∃ b, matchesElem fl (.qobj q) = .ok b := h
    rw [execute_queryE_filter hE]
    rfl
  · unfold execute_query
    have hnil : ∀ fl ∈ flights, ∃ b, matchesElem fl (.qobj []) = .ok b :=
      fun fl _ => ⟨true, matches_nil fl⟩
    rw [execute_queryE_filter hnil]
    congr 1
    rw [List.filter_eq_self]
    intro fl _
    show matchBE fl (.qobj []) = true
    unfold matchBE
    rw [show matchesElem fl (.qobj []) = .ok true from matches_nil fl]

/-- C9 witness: a concrete working set filtered by a concrete exact-match
query, and returned whole by the empty query. -/
theorem c9_witness :
    execute_query
      [[("origin", Value.vstr "LHR")], [("origin", Value.vstr "FRA")]]
      [("origin", Value.vstr "LHR")] =
      .ok ([[("origin", Value.vstr "LHR")], [("origin", Value.vstr "FRA")]].filter
        (fun fl => matchB fl [("origin", Value.vstr "LHR")])) ∧
    execute_query
      [[("origin", Value.vstr "LHR")], [("origin", Value.vstr "FRA")]] [] =
      .ok [[("origin", Value.vstr "LHR")], [("origin", Value.vstr "FRA")]] :=
  c9_execute_is_filter
    [[("origin", Value.vstr "LHR")], [("origin", Value.vstr "FRA")]]
    [("origin", Value.vstr "LHR")]
    (by intro fl hfl
        simp only [List.mem_cons, List.mem_singleton, List.not_mem_nil,
          or_false] at hfl
        rcases hfl with rfl | rfl
        · exact ⟨true, by decide⟩
        · exact ⟨false, by decide⟩)

/-! ## Claim C10 -/

/-- C10 counterexample: a decoded query file that is a sequence containing
a non-object element is *not* rejected with a format error — the element is
passed to execution unchecked (here, with an empty working set, it even
produces an ordinary result). -/
theorem c10_counterexample :
    execute_queries_content [] (.carr [.qnull]) = .ok [(.qnull, [])] ∧
    execute_queries_content [] (.carr [.qnull]) ≠ .error .valueError := by
  refine ⟨by decide, by decide⟩

/-- C10 (amended): a single query object is treated exactly as the
one-element sequence; a sequence produces one `(query, matches)` result per
element in input order (pairing the original query with the execution
result) whenever no element raises; and the top-level format error is
raised only when the decoded content is neither an object nor a sequence —
elements of a sequence are not type-checked. -/
theorem c10_query_file_semantics (flights : List RecordV) (q : RecordV)
    (es : List QElem)
    (h : ∀ e ∈ es, ∀ fl ∈ flights, ∃ b, matchesElem fl e = .ok b) :
    execute_queries_content flights (.cobj q) =
      execute_queries_content flights (.carr [.qobj q]) ∧
    execute_queries_content flights (.carr es) =
      .ok (es.map (fun e => (e, flights.filter (fun fl => matchBE fl e)))) ∧
    execute_queries_content flights .cother = .error .valueError := by
  refine ⟨rfl, ?_, rfl⟩
  show runQueries flights es = _
  induction es with
  | nil => rfl
  | cons e rest ih =>
    have he := h e (List.mem_cons_self _ _)
    have hrest := ih (fun x hx fl hfl => h x (List.mem_cons_of_mem _ hx) fl hfl)
    unfold runQueries
    rw [execute_queryE_filter he, hrest]
    rfl

/-- C10 witness: one object query over a one-record working set — the
single object behaves as a one-element sequence, the result pairs the
query with its matches, and a non-object, non-sequence top level is a
format error. -/
theorem c10_witness :
    execute_queries_content [[("origin", Value.vstr "LHR")]]
      (.cobj [("origin", Value.vstr "LHR")]) =
      execute_queries_content [[("origin", Value.vstr "LHR")]]
        (.carr [.qobj [("origin", Value.vstr "LHR")]]) ∧
    execute_queries_content [[("origin", Value.vstr "LHR")]]
      (.carr [.qobj [("origin", Value.vstr "LHR")]]) =
      .ok ([QElem.qobj [("origin", Value.vstr "LHR")]].map
        (fun e => (e, [[("origin", Value.vstr "LHR")]].filter
          (fun fl => matchBE fl e)))) ∧
    execute_queries_content [[("origin", Value.vstr "LHR")]] .cother =
      .error .valueError :=
  c10_query_file_semantics [[("origin", Value.vstr "LHR")]]
    [("origin", Value.vstr "LHR")]
    [.qobj [("origin", Value.vstr "LHR")]]
    (by intro e he fl hfl
        simp only [List.mem_singleton] at he hfl
        subst he
        subst hfl
        exact ⟨true, by decide⟩)
